import Mathlib

/-!
# Verification of the ai_task client-side orchestration subsystem

Shallow embedding of the heartbeat arbitration protocol
(`apiserver/dao/heartbeat_dao.py`, `apiserver/routes/auth_plugin.py`),
the task workflow state machine (`clients/worker/base_node.py`,
`clients/worker/task_worker.py`, `clients/worker/code_develop_node.py`),
the RPC transport (`clients/rpc/apiserver_rpc.py`), the task-flow DAO
(`apiserver/dao/task_dao.py`) and the Git sync engine
(`clients/utils/git_utils.py`).

Modelling conventions:
* wall-clock times are integers counting seconds (`datetime` subtraction
  followed by `.total_seconds()` becomes integer subtraction; the
  comparison operators of the source are preserved exactly);
* database state touched by a function is passed in and returned
  explicitly (each heartbeat function only reads/writes the single row
  keyed by `(user_id, client_id)`, so that row is the state);
* a Python code path that would raise an exception on the modelled
  inputs is an `Option`/`Except` failure;
* subprocess and HTTP environments are functions from the command /
  attempt index to the observed outcome, and the embedding additionally
  records the trace of commands it issued so that "performs no push"
  style frame properties can be stated.
-/

/-- `charsStartWith s pat`: `pat` is an initial segment of `s`. -/
def charsStartWith : List Char → List Char → Bool
  | _, [] => true
  | [], _ :: _ => false
  | c :: cs, p :: ps => c = p && charsStartWith cs ps

/-- `charsContain s pat`: `pat` occurs contiguously inside `s`. -/
def charsContain : List Char → List Char → Bool
  | s@(_ :: cs), pat => charsStartWith s pat || charsContain cs pat
  | [], pat => pat.isEmpty

/-- Model of the Python substring test `pat in s`. -/
def strContains (s pat : String) : Bool :=
  charsContain s.data pat.data

/-- Model of Python `str.lower()` on one character (ASCII range; the
strings it is applied to in the source are git messages). -/
def pyLowerChar (c : Char) : Char :=
  if 65 ≤ c.toNat ∧ c.toNat ≤ 90 then Char.ofNat (c.toNat + 32) else c

/-- Model of Python `str.lower()`. -/
def pyLower (s : String) : String :=
  String.mk (s.data.map pyLowerChar)

/-- Whitespace for the model of Python `str.strip()`. -/
def isSpaceChar (c : Char) : Bool :=
  c = ' ' || c = '\t' || c = '\n' || c = '\r'

/-- Model of Python `str.strip()` (drop leading and trailing
whitespace). -/
def pyStrip (s : String) : String :=
  String.mk
    (((s.data.dropWhile isSpaceChar).reverse.dropWhile isSpaceChar).reverse)

/-- One decimal digit, or `none`. -/
def pyDigit? (c : Char) : Option Nat :=
  if '0' ≤ c ∧ c ≤ '9' then some (c.toNat - 48) else none

/-- Accumulate decimal digits; `none` on any non-digit. -/
def pyParseNatAux : List Char → Nat → Option Nat
  | [], acc => some acc
  | c :: cs, acc =>
      match pyDigit? c with
      | some d => pyParseNatAux cs (acc * 10 + d)
      | none => none

/-- Model of Python `int(s)` for the non-negative decimal numerals git
prints: strip, then parse all-digits; `none` models the raised
`ValueError`. -/
def pyParseNat (s : String) : Option Nat :=
  match (pyStrip s).data with
  | [] => none
  | l => pyParseNatAux l 0

namespace HeartbeatDao

/-- One row of the `client_heartbeat` table, as read by
`heartbeat_dao.py`: the current instance UUID and the `last_sync_at`
timestamp (nullable column, hence `Option`). -/
structure Lease where
  instance_uuid : String
  last_sync_at : Option Int
  deriving Repr, DecidableEq

/-- The `(bool, str)` pair returned by `update_heartbeat`. -/
structure HeartbeatReply where
  ok : Bool
  msg : String
  deriving Repr, DecidableEq

/-- The rejection message
`f"客户端实例变更，请等待{remaining}秒后再重试客户端"` built at
`heartbeat_dao.py:69`. -/
def heartbeatRejectMsg (remaining : Int) : String :=
  "客户端实例变更，请等待" ++ toString remaining ++ "秒后再重试客户端"

/-- `heartbeat_dao.update_heartbeat` (lines 14-69), acting on the single
row for `(user_id, client_id)` (`none` = no row).  Returns the reply and
the row after the call; the outer `Option` is `none` only when the
stored `last_sync_at` is NULL and the UUID differs, where the Python
code would raise a `TypeError` on `now - heartbeat.last_sync_at`. -/
def update_heartbeat (lease : Option Lease) (instance_uuid : String)
    (now : Int) (cooldown : Int) :
    Option (HeartbeatReply × Option Lease) :=
  match lease with
  | none =>
      -- 首次心跳，创建记录
      some (⟨true, ""⟩, some ⟨instance_uuid, some now⟩)
  | some hb =>
      if hb.instance_uuid = instance_uuid then
        -- UUID相同，直接更新时间
        some (⟨true, ""⟩, some { hb with last_sync_at := some now })
      else
        match hb.last_sync_at with
        | none => none
        | some t =>
            let time_since_last := now - t
            if time_since_last ≥ cooldown then
              -- 超过冷却时间，允许新实例接管
              some (⟨true, ""⟩, some ⟨instance_uuid, some now⟩)
            else
              -- 冷却中，拒绝
              some (⟨false, heartbeatRejectMsg (cooldown - time_since_last)⟩,
                    some hb)

/-- `heartbeat_dao.check_instance_uuid_valid` (lines 109-146): read-only
validity predicate over the stored row. -/
def check_instance_uuid_valid (lease : Option Lease) (instance_uuid : String)
    (now : Int) (cooldown : Int) : Bool :=
  match lease with
  | none => true
  | some hb =>
      if hb.instance_uuid = instance_uuid then true
      else
        match hb.last_sync_at with
        | none => true
        | some t => if now - t < cooldown then false else true

/-- Outcome of the authentication decorator for one request. -/
inductive AuthDecision
  | unauthorized
  | conflict
  | handlerRun
  deriving Repr, DecidableEq

/-- The secret-authentication path of `auth_plugin.login_required`
(lines 58-95), the decorator wrapping every worker-facing route.
`user` is the result of `get_user_by_secret`, `instanceUuid` /
`clientId` the optional `X-Instance-UUID` / parsed `X-Client-ID`
headers (`clientId = none` also covers the `ValueError` branch that
skips the check), and `leaseOf` the heartbeat row per `(user, client)`.
The instance check runs with the default cooldown of 60 seconds and a
failing check returns HTTP 409 before the wrapped handler is invoked. -/
def login_required (user : Option Nat) (instanceUuid : Option String)
    (clientId : Option Nat) (leaseOf : Nat → Nat → Option Lease)
    (now : Int) : AuthDecision :=
  match user with
  | none => .unauthorized
  | some uid =>
      match instanceUuid, clientId with
      | some uuid, some cid =>
          if check_instance_uuid_valid (leaseOf uid cid) uuid now 60 then
            .handlerRun
          else
            .conflict
      | _, _ => .handlerRun

end HeartbeatDao

namespace BaseNodeM

/-- One of the three abstract stage executors of `BaseNode`
(`base_node.py` lines 67-79), i.e. which `main_executor` argument
`execute` passes to `_execute_and_persist`. -/
inductive MainExecutor
  | executeForPending
  | executeForRevising
  | executeForReviewed
  deriving Repr, DecidableEq

/-- Which concrete stage a `CodeDevelopNode` executor runs:
`execute_for_pending` builds the development prompt,
`execute_for_revising` simply calls `execute_for_pending`
(`code_develop_node.py` lines 128-130), and `execute_for_reviewed`
builds the merge-preparation prompt (lines 132-143). -/
inductive StageKind
  | development
  | mergePreparation
  deriving Repr, DecidableEq

/-- `CodeDevelopNode`: map each abstract executor to its stage. -/
def codeDevelopStage : MainExecutor → StageKind
  | .executeForPending => .development
  | .executeForRevising => .development
  | .executeForReviewed => .mergePreparation

/-- One `update_task_flow` RPC call issued by `_execute_and_persist`:
the `flow_status` it sends and whether the `flow` document is sent
along with it. -/
structure PersistCall where
  flow_status : String
  withFlow : Bool
  deriving Repr, DecidableEq

/-- What a single `BaseNode.execute(trace_id)` call does on the success
path, as a function of the current `flow_status`
(`base_node.py` lines 94-161): the optional intermediate
`flow_status`-only persist issued before the envelope when
`current_status != executing_status`, the executor the envelope runs
(`none` for the no-op statuses), and the final combined
`flow + flow_status` persist issued after the envelope. -/
structure ExecPlan where
  intermediatePersist : Option PersistCall
  mainExecutor : Option MainExecutor
  finalPersist : Option PersistCall
  deriving Repr, DecidableEq

/-- `BaseNode.execute` (lines 94-125) composed with
`_execute_and_persist` (lines 127-161), restricted to the success path
(exceptions raised inside the envelope propagate to the caller and are
modelled in `TaskWorkerM`).  Returns `none` when the status matches no
branch and the method raises `ValueError`. -/
def execute (flow_status : String) : Option ExecPlan :=
  if flow_status = "pending" ∨ flow_status = "running" then
    some { intermediatePersist :=
             if flow_status ≠ "running" then some ⟨"running", false⟩ else none
           mainExecutor := some .executeForPending
           finalPersist := some ⟨"reviewing", true⟩ }
  else if flow_status = "revising" then
    some { intermediatePersist := none
           mainExecutor := some .executeForRevising
           finalPersist := some ⟨"reviewing", true⟩ }
  else if flow_status = "reviewed" then
    some { intermediatePersist := none
           mainExecutor := some .executeForReviewed
           finalPersist := some ⟨"done", true⟩ }
  else if flow_status = "reviewing" ∨ flow_status = "done" ∨
          flow_status = "error" ∨ flow_status = "client_error" then
    some { intermediatePersist := none
           mainExecutor := none
           finalPersist := none }
  else
    none

/-- A record of `task.flow.nodes`, keeping the two fields the
`user_feedback` property reads. -/
structure FlowNodeRec where
  type : String
  content : String
  deriving Repr, DecidableEq

/-- `BaseNode.user_feedback` (lines 36-42): the content of the last
node when it is a `user_feedback` node, `""` otherwise. -/
def user_feedback (nodes : List FlowNodeRec) : String :=
  match nodes.getLast? with
  | some n => if n.type = "user_feedback" then n.content else ""
  | none => ""

end BaseNodeM

namespace TaskWorkerM

/-- The slice of the task snapshot the worker loop mutates:
`flow_status` and the `error` entry of the `flow` document. -/
structure WTask where
  flow_status : String
  flow_error : Option String
  deriving Repr, DecidableEq

/-- The observable effect of one iteration of `TaskWorker.run`
(`task_worker.py` lines 32-50). -/
structure IterResult where
  /-- The in-memory task at the end of the iteration. -/
  task : WTask
  /-- Whether `CodeDevelopNode(...).execute` was invoked. -/
  executed : Bool
  /-- The `flow` error text persisted via `update_task_flow` with
  `flow_status="client_error"`, when an exception was caught. -/
  persistedError : Option String
  deriving Repr, DecidableEq

/-- One iteration of the `while not self.stopped` body of
`TaskWorker.run`: `fetched` is the task returned by `get_task`,
`raised` the exception text propagating out of `sync_config` /
`execute` (`none` when the body completes normally), and `persistOk`
the boolean returned by the `update_task_flow` call in the `except`
branch — the code ignores it, which the model makes visible by taking
it as an argument that the result cannot depend on. -/
def run_iteration (fetched : WTask) (raised : Option String)
    (persistOk : Bool) : IterResult :=
  if strContains fetched.flow_status "error" then
    -- `if 'error' in self.task.flow_status: continue`
    ⟨fetched, false, none⟩
  else
    match raised with
    | none => ⟨fetched, true, none⟩
    | some msg =>
        let _ := persistOk
        ⟨⟨"client_error", some msg⟩, true, some msg⟩

end TaskWorkerM

namespace RpcM

/-- What one HTTP attempt observes at the transport level. -/
inductive HttpBody
  /-- `response.json()` succeeded; `message` is the decoded body's
  `message` field (`none` when absent). -/
  | parsed (message : Option String)
  /-- `response.json()` raised (non-JSON body). -/
  | unparsable
  deriving Repr, DecidableEq

/-- Outcome of issuing one `requests.request(...)` call. -/
inductive NetOutcome
  /-- `requests.RequestException` (connection-level failure). -/
  | connError
  /-- An HTTP response with the given status code and body. -/
  | response (status : Nat) (body : HttpBody)
  deriving Repr, DecidableEq

/-- Result of `ApiServerRpc._request`: either the decoded data
(tracked by its `message` field) or a raised `ApiException`
carrying `(code, message)`. -/
inductive RpcResult
  | ok (message : Option String)
  | apiError (code : Nat) (msg : String)
  deriving Repr, DecidableEq

/-- `max_network_retries` at `apiserver_rpc.py:114`. -/
def maxNetworkRetries : Nat := 10

/-- The message of the `ApiException` raised when `response.json()`
fails (`apiserver_rpc.py:137-140`; the interpolated exception text is
elided). -/
def jsonFailMsg : String := "服务器返回非 JSON 响应"

/-- The message of the `ApiException(0, ...)` raised after the retry
budget is exhausted (`apiserver_rpc.py:173`; interpolated exception
text elided). -/
def netFailMsg : String := "请求异常"

/-- Default server message `'请求失败'` used at
`apiserver_rpc.py:152` when the decoded body has no `message`. -/
def defaultErrMsg : String := "请求失败"

/-- `ApiServerRpc._request` (lines 89-173) starting from retry counter
`k`.  `outcomes i` is what the `i`-th `requests.request` call observes.
Returns the result together with the number of HTTP requests issued and
the total seconds slept (`time.sleep(10)` before each retry). -/
def requestAux (outcomes : Nat → NetOutcome) (k : Nat) :
    RpcResult × Nat × Nat :=
  match outcomes k with
  | .response status body =>
      match body with
      | .unparsable => (.apiError status jsonFailMsg, 1, 0)
      | .parsed message =>
          if status ≥ 400 then
            (.apiError status (message.getD defaultErrMsg), 1, 0)
          else
            (.ok message, 1, 0)
  | .connError =>
      if k < maxNetworkRetries then
        let r := requestAux outcomes (k + 1)
        (r.1, r.2.1 + 1, r.2.2 + 10)
      else
        (.apiError 0 netFailMsg, 1, 0)
termination_by maxNetworkRetries - k
decreasing_by
  simp_wf
  omega

/-- `ApiServerRpc._request` as called by the public methods
(`_network_retry_count = 0`). -/
def request (outcomes : Nat → NetOutcome) : RpcResult × Nat × Nat :=
  requestAux outcomes 0

/-- `ApiServerRpc.update_task_flow` (lines 219-246): issue the PUT and
convert the outcome to a `Bool` — `True` on success, `False` when the
`ApiException` is caught.  By construction no exception escapes. -/
def rpc_update_task_flow (outcomes : Nat → NetOutcome) : Bool :=
  match request outcomes with
  | (.ok _, _, _) => true
  | (.apiError _ _, _, _) => false

end RpcM

namespace TaskDaoM

/-- The two columns of the `task` table touched by
`task_dao.update_task_flow`; the `flow` document is kept opaque so
that "byte-for-byte unchanged" is plain equality. -/
structure StoredTask where
  flow : String
  flow_status : String
  deriving Repr, DecidableEq

/-- `task_dao.update_task_flow` (lines 133-160): build `update_data`
from the non-`None` arguments; an empty `update_data` returns `True`
without touching the row; otherwise the UPDATE writes exactly the
collected fields and reports `affected > 0` (`rowExists` says whether
the `(task_id, user_id)` filter matches the row `t`). -/
def update_task_flow (rowExists : Bool) (t : StoredTask)
    (flow : Option String) (flow_status : Option String) :
    StoredTask × Bool :=
  if flow = none ∧ flow_status = none then
    (t, true)
  else if rowExists then
    ({ flow := flow.getD t.flow, flow_status := flow_status.getD t.flow_status },
     true)
  else
    (t, false)

end TaskDaoM

namespace GitM

/-- A git subprocess invocation, identified well enough to state trace
properties (which commands an operation did or did not run). -/
inductive GitCmd
  | fetchAll
  | lsRemoteHeads (branch : String)
  | checkout (branch : String)
  | resetHard (ref : String)
  | branchList (branch : String)
  | branchDelete (branch : String)
  | checkoutNew (branch : String)
  | rebase (ref : String)
  | rebaseAbort
  | pushForce (branch : String)
  | statusPorcelain
  | addAll
  | commit (msg : String)
  | revParseHead
  | push (branch : String)
  | revListCount (range : String)
  deriving Repr, DecidableEq

/-- The `(success, message)` view of `_run_git_command`'s `GitResult`
(`git_utils.py` lines 176-222); `message` is the stripped stdout on
success and the stripped stderr/stdout on failure. -/
structure GRes where
  success : Bool
  message : String
  deriving Repr, DecidableEq

/-- `git_utils.GitResult` (lines 19-25). -/
structure GitResult where
  success : Bool
  message : String := ""
  default_branch : String := ""
  diff_message : String := ""
  deriving Repr, DecidableEq

/-- The subprocess environment: what each git command returns when
run.  All operations modelled here are sequences of such calls. -/
def GitEnv := GitCmd → GRes

/-- `_check_remote_branch_exists` (lines 477-494). -/
def check_remote_branch_exists (env : GitEnv) (branch : String) : Bool :=
  let r := env (.lsRemoteHeads branch)
  r.success && strContains r.message branch

/-- `_check_local_branch_exists` (lines 497-514). -/
def check_local_branch_exists (env : GitEnv) (branch : String) : Bool :=
  let r := env (.branchList branch)
  r.success && strContains r.message branch

/-- Steps 3-4 of `sync_and_rebase_branch` (lines 425-467), the common
tail both branch-setup paths fall through to: rebase onto
`origin/<default_branch>`; on failure abort the rebase (abort failure
is only a warning) and return the distinguished `"rebase conflict"`
outcome; on success force-push the development branch. -/
def syncRebaseFinish (env : GitEnv) (dev_branch default_branch : String)
    (tr : List GitCmd) : GitResult × List GitCmd :=
  let rb := env (.rebase ("origin/" ++ default_branch))
  let tr := tr ++ [GitCmd.rebase ("origin/" ++ default_branch)]
  if ¬rb.success then
    ({ success := false, message := "rebase conflict" },
     tr ++ [GitCmd.rebaseAbort])
  else
    let pr := env (.pushForce dev_branch)
    let tr := tr ++ [GitCmd.pushForce dev_branch]
    if ¬pr.success then
      ({ success := false, message := "push 失败: " ++ pr.message }, tr)
    else
      ({ success := true,
         message := "分支 " ++ dev_branch ++ " 已成功 rebase 并推送到云端" },
       tr)

/-- `sync_and_rebase_branch` (lines 291-474).  `repoExists` /
`gitDirExists` model the two `os.path.exists` preconditions.  Returns
the `GitResult` and the trace of git commands issued. -/
def sync_and_rebase_branch (env : GitEnv) (repoExists gitDirExists : Bool)
    (dev_branch default_branch : String) : GitResult × List GitCmd :=
  if ¬repoExists then
    ({ success := false, message := "仓库目录不存在" }, [])
  else if ¬gitDirExists then
    ({ success := false, message := "目录不是有效的 Git 仓库" }, [])
  else
    let fr := env .fetchAll
    if ¬fr.success then
      ({ success := false, message := "fetch 远端失败: " ++ fr.message },
       [GitCmd.fetchAll])
    else
      let tr := [GitCmd.fetchAll, GitCmd.lsRemoteHeads dev_branch]
      if check_remote_branch_exists env dev_branch then
        -- 云端存在开发分支，切换并同步
        let co := env (.checkout dev_branch)
        let tr := tr ++ [GitCmd.checkout dev_branch]
        if ¬co.success then
          ({ success := false,
             message := "切换到分支 " ++ dev_branch ++ " 失败: " ++ co.message },
           tr)
        else
          let rs := env (.resetHard ("origin/" ++ dev_branch))
          let tr := tr ++ [GitCmd.resetHard ("origin/" ++ dev_branch)]
          if ¬rs.success then
            ({ success := false, message := "同步到云端分支失败: " ++ rs.message },
             tr)
          else
            syncRebaseFinish env dev_branch default_branch tr
      else
        -- 云端不存在开发分支，从主分支创建
        let cd := env (.checkout default_branch)
        let tr := tr ++ [GitCmd.checkout default_branch]
        if ¬cd.success then
          ({ success := false,
             message := "切换到主分支 " ++ default_branch ++ " 失败: " ++ cd.message },
           tr)
        else
          let rd := env (.resetHard ("origin/" ++ default_branch))
          let tr := tr ++ [GitCmd.resetHard ("origin/" ++ default_branch)]
          if ¬rd.success then
            ({ success := false, message := "同步主分支失败: " ++ rd.message }, tr)
          else
            let tr := tr ++ [GitCmd.branchList dev_branch]
            let tr :=
              if check_local_branch_exists env dev_branch then
                -- 本地存在，删除后重新创建（删除失败仅告警）
                tr ++ [GitCmd.branchDelete dev_branch]
              else tr
            let cb := env (.checkoutNew dev_branch)
            let tr := tr ++ [GitCmd.checkoutNew dev_branch]
            if ¬cb.success then
              ({ success := false,
                 message := "创建分支 " ++ dev_branch ++ " 失败: " ++ cb.message },
               tr)
            else
              syncRebaseFinish env dev_branch default_branch tr

/-- The guard "control reaches the `git rebase` step": fetch succeeded
and whichever branch-setup path was taken succeeded.  Mirrors the
branching structure of `sync_and_rebase_branch`. -/
def reachesRebase (env : GitEnv) (repoExists gitDirExists : Bool)
    (dev_branch default_branch : String) : Prop :=
  repoExists = true ∧ gitDirExists = true ∧
  (env .fetchAll).success = true ∧
  (if check_remote_branch_exists env dev_branch then
    (env (.checkout dev_branch)).success = true ∧
      (env (.resetHard ("origin/" ++ dev_branch))).success = true
  else
    (env (.checkout default_branch)).success = true ∧
      (env (.resetHard ("origin/" ++ default_branch))).success = true ∧
      (env (.checkoutNew dev_branch)).success = true)

instance (env : GitEnv) (r g : Bool) (dev dflt : String) :
    Decidable (reachesRebase env r g dev dflt) := by
  unfold reachesRebase
  infer_instance

/-- `_check_diff_with_default_branch` (lines 565-603).  The result is
`none` when `int()` would raise on a non-numeric `rev-list --count`
output (propagating as the caller's generic exception handler),
otherwise the informational ahead-count message. -/
def check_diff_with_default_branch (env : GitEnv) (default_branch : String) :
    Option String × List GitCmd :=
  let br := env .revParseHead
  if ¬br.success then (some "", [GitCmd.revParseHead])
  else
    let current := pyStrip br.message
    if current = default_branch then (some "", [GitCmd.revParseHead])
    else
      let range := "origin/" ++ default_branch ++ ".." ++ current
      let d := env (.revListCount range)
      let tr := [GitCmd.revParseHead, GitCmd.revListCount range]
      if d.success then
        match pyParseNat d.message with
        | none => (none, tr)
        | some ahead =>
            (some (if ahead = 0 then ""
                   else "有 " ++ toString ahead ++ " 个提交需要合并到 " ++
                        default_branch),
             tr)
      else (some "", tr)

/-- `commit_and_push_changes` (lines 606-740): porcelain status check,
then either the "nothing to commit" report or stage-all / commit /
push, each followed by the informational ahead-count.  A `none` from
`check_diff_with_default_branch` is the `int()` exception caught by the
outer handler (message detail elided). -/
def commit_and_push_changes (env : GitEnv) (repoExists gitDirExists : Bool)
    (commit_msg default_branch : String) : GitResult × List GitCmd :=
  if ¬repoExists then
    ({ success := false, message := "仓库目录不存在" }, [])
  else if ¬gitDirExists then
    ({ success := false, message := "目录不是有效的 Git 仓库" }, [])
  else
    let st := env .statusPorcelain
    if ¬st.success then
      ({ success := false, message := "检查仓库状态失败: " ++ st.message },
       [GitCmd.statusPorcelain])
    else if pyStrip st.message = "" then
      -- 没有需要提交的修改
      let dres := check_diff_with_default_branch env default_branch
      match dres.1 with
      | none =>
          ({ success := false, message := "操作异常" },
           GitCmd.statusPorcelain :: dres.2)
      | some dm =>
          ({ success := true, message := "没有需要提交的修改",
             diff_message := dm },
           GitCmd.statusPorcelain :: dres.2)
    else
      let ar := env .addAll
      let tr := [GitCmd.statusPorcelain, GitCmd.addAll]
      if ¬ar.success then
        ({ success := false, message := "添加文件到暂存区失败: " ++ ar.message },
         tr)
      else
        let cr := env (.commit commit_msg)
        let tr := tr ++ [GitCmd.commit commit_msg]
        if ¬cr.success then
          ({ success := false, message := "提交失败: " ++ cr.message }, tr)
        else
          let br := env .revParseHead
          let tr := tr ++ [GitCmd.revParseHead]
          if ¬br.success then
            ({ success := false, message := "获取当前分支失败: " ++ br.message },
             tr)
          else
            let current := pyStrip br.message
            let pr := env (.push current)
            let tr := tr ++ [GitCmd.push current]
            if ¬pr.success then
              ({ success := false, message := "推送失败: " ++ pr.message }, tr)
            else
              let dres := check_diff_with_default_branch env default_branch
              match dres.1 with
              | none =>
                  ({ success := false, message := "操作异常" }, tr ++ dres.2)
              | some dm =>
                  ({ success := true,
                     message := "提交并推送成功: " ++ current,
                     diff_message := dm },
                   tr ++ dres.2)

/-- Idealized state of a working copy for sequencing two
`commit_and_push_changes` calls: whether the worktree has uncommitted
changes, and how many commits the current branch is ahead of the
default branch. -/
structure RepoState where
  dirty : Bool
  aheadMsg : String
  deriving Repr, DecidableEq

/-- Modelled git semantics: the subprocess environment a working copy
in state `s`, checked out on branch `current`, presents to
`commit_and_push_changes`.  `git status --porcelain` prints nothing on
a clean worktree; `git rev-list --count` prints the decimal ahead
count, recorded here as the raw string `s.aheadMsg`. -/
def envOfState (s : RepoState) (current : String) : GitEnv := fun c =>
  match c with
  | .statusPorcelain => ⟨true, if s.dirty then "M x" else ""⟩
  | .revParseHead => ⟨true, current⟩
  | .revListCount _ => ⟨true, s.aheadMsg⟩
  | _ => ⟨true, ""⟩

/-- Modelled git semantics: the state transition performed by a
successful `commit_and_push_changes` — `git add -A && git commit`
commits every pending change, leaving the worktree clean (the reported
ahead count changes, but the model does not interpret it); a push does
not touch the worktree. -/
def commitStateStep (s : RepoState) (newAheadMsg : String) : RepoState :=
  if s.dirty then ⟨false, newAheadMsg⟩ else s

end GitM

namespace CodeDevelopM

/-- The outcome of `agent.run_prompt(..., json_parse=True)` as used by
`_sync_repo`: either the agent invocation itself failed, or it returned
a parsed dict with `success` and `msg` fields. -/
inductive AgentReply
  | fail (reply : String)
  | parsed (success : Bool) (msg : String)
  deriving Repr, DecidableEq

/-- `CodeDevelopNode._sync_repo` (lines 228-270) from the point where
`sync_and_rebase_branch` has returned: on success return; on a failure
whose lowercased message does not contain `conflict` raise the generic
error; otherwise hand the conflict to the agent with the scripted
remediation prompt and a required structured reply, raising when the
agent fails or reports `success = false`.  `Except.error` is a raised
exception (the stage fails). -/
def sync_repo_handle (gitResult : GitM.GitResult) (agent : AgentReply) :
    Except String Unit :=
  if gitResult.success then .ok ()
  else if ¬ strContains (pyLower gitResult.message) "conflict" then
    .error ("同步并 rebase 失败: " ++ gitResult.message)
  else
    match agent with
    | .fail reply => .error ("Agent 处理 rebase 冲突失败: " ++ reply)
    | .parsed ok msg =>
        if ok then .ok () else .error ("解决冲突失败: " ++ msg)

end CodeDevelopM

/-! ## Spec predicate for the instance-validity refinement claim -/

/-- The spec's description of `checkInstanceUuidValid`, stated in its
own words: valid iff no lease exists, or the stored token equals the
given token, or the lease's last sync time is absent or at least
`cooldown` seconds in the past. -/
def specInstanceValid (lease : Option HeartbeatDao.Lease) (uuid : String)
    (now cooldown : Int) : Prop :=
  lease = none ∨
  (∃ hb, lease = some hb ∧ hb.instance_uuid = uuid) ∨
  (∃ hb, lease = some hb ∧ hb.last_sync_at = none) ∨
  (∃ hb t, lease = some hb ∧ hb.last_sync_at = some t ∧ cooldown ≤ now - t)

/-! ## Claim theorems -/

/-- C1: `update_heartbeat` creates a lease and ACCEPTs when none
exists; refreshes `last_sync_at` and ACCEPTs on a matching token;
overwrites token and timestamp and ACCEPTs on a differing token once
`now - lastSeen > cooldownSeconds`; REJECTs with the remaining-seconds
hint and leaves the stored row unchanged on a differing token within
the cooldown; and repeated same-token heartbeats always ACCEPT without
ever changing the stored token. -/
theorem update_heartbeat_cases :
    (∀ (uuid : String) (now cooldown : Int),
        HeartbeatDao.update_heartbeat none uuid now cooldown
          = some (⟨true, ""⟩, some ⟨uuid, some now⟩)) ∧
    (∀ (hb : HeartbeatDao.Lease) (uuid : String) (now cooldown : Int),
        hb.instance_uuid = uuid →
        HeartbeatDao.update_heartbeat (some hb) uuid now cooldown
          = some (⟨true, ""⟩, some ⟨hb.instance_uuid, some now⟩)) ∧
    (∀ (hb : HeartbeatDao.Lease) (t : Int) (uuid : String) (now cooldown : Int),
        hb.instance_uuid ≠ uuid → hb.last_sync_at = some t →
        now - t > cooldown →
        HeartbeatDao.update_heartbeat (some hb) uuid now cooldown
          = some (⟨true, ""⟩, some ⟨uuid, some now⟩)) ∧
    (∀ (hb : HeartbeatDao.Lease) (t : Int) (uuid : String) (now cooldown : Int),
        hb.instance_uuid ≠ uuid → hb.last_sync_at = some t →
        now - t < cooldown →
        HeartbeatDao.update_heartbeat (some hb) uuid now cooldown
          = some (⟨false, HeartbeatDao.heartbeatRejectMsg (cooldown - (now - t))⟩,
                  some hb)) ∧
    (∀ (hb : HeartbeatDao.Lease) (uuid : String) (now1 now2 cooldown : Int),
        hb.instance_uuid = uuid →
        HeartbeatDao.update_heartbeat (some hb) uuid now1 cooldown
          = some (⟨true, ""⟩, some ⟨hb.instance_uuid, some now1⟩) ∧
        HeartbeatDao.update_heartbeat (some ⟨hb.instance_uuid, some now1⟩) uuid
            now2 cooldown
          = some (⟨true, ""⟩, some ⟨hb.instance_uuid, some now2⟩)) := by
  refine ⟨fun uuid now cooldown => rfl, ?_, ?_, ?_, ?_⟩
  · intro hb uuid now cooldown h
    simp [HeartbeatDao.update_heartbeat, h]
  · intro hb t uuid now cooldown h1 h2 h3
    simp only [HeartbeatDao.update_heartbeat, if_neg h1, h2]
    rw [if_pos (le_of_lt h3)]
  · intro hb t uuid now cooldown h1 h2 h3
    simp only [HeartbeatDao.update_heartbeat, if_neg h1, h2]
    rw [if_neg (not_le.mpr h3)]
  · intro hb uuid now1 now2 cooldown h
    constructor
    · simp [HeartbeatDao.update_heartbeat, h]
    · simp [HeartbeatDao.update_heartbeat, h]

/-- Witness for C1 at concrete inputs exercising the same-token,
reject and takeover branches. -/
theorem update_heartbeat_cases_witness :
    HeartbeatDao.update_heartbeat (some ⟨"u1", some 0⟩) "u1" 30 60
      = some (⟨true, ""⟩, some ⟨"u1", some 30⟩) ∧
    HeartbeatDao.update_heartbeat (some ⟨"u1", some 0⟩) "u2" 30 60
      = some (⟨false, HeartbeatDao.heartbeatRejectMsg 30⟩, some ⟨"u1", some 0⟩) ∧
    HeartbeatDao.update_heartbeat (some ⟨"u1", some 0⟩) "u2" 100 60
      = some (⟨true, ""⟩, some ⟨"u2", some 100⟩) := by
  refine ⟨?_, ?_, ?_⟩
  · exact update_heartbeat_cases.2.1 ⟨"u1", some 0⟩ "u1" 30 60 rfl
  · have h := update_heartbeat_cases.2.2.2.1 ⟨"u1", some 0⟩ 0 "u2" 30 60
      (by decide) rfl (by decide)
    norm_num at h
    exact h
  · exact update_heartbeat_cases.2.2.1 ⟨"u1", some 0⟩ 0 "u2" 100 60
      (by decide) rfl (by decide)

/-- C2: arbitration fencing — for a lease last seen at `T` with token
`A`, a heartbeat with a different token `B` at `T + Δ` is rejected with
a `cooldown - Δ` remaining hint when `Δ < cooldown` and accepted when
`Δ ≥ cooldown`; after acceptance an immediate heartbeat with the old
token `A` is rejected; concretely (scenario B, cooldown 60): `u1` at
`t = 0` accepted, `u2` at `t = 30` rejected with a 30-second hint, `u2`
at `t = 61` accepted. -/
theorem arbitration_fencing :
    (∀ (A B : String) (T Δ cooldown : Int), A ≠ B → 0 ≤ Δ → Δ < cooldown →
        HeartbeatDao.update_heartbeat (some ⟨A, some T⟩) B (T + Δ) cooldown
          = some (⟨false, HeartbeatDao.heartbeatRejectMsg (cooldown - Δ)⟩,
                  some ⟨A, some T⟩)) ∧
    (∀ (A B : String) (T Δ cooldown : Int), A ≠ B → cooldown ≤ Δ →
        HeartbeatDao.update_heartbeat (some ⟨A, some T⟩) B (T + Δ) cooldown
          = some (⟨true, ""⟩, some ⟨B, some (T + Δ)⟩)) ∧
    (∀ (A B : String) (T2 cooldown : Int), A ≠ B → 0 < cooldown →
        HeartbeatDao.update_heartbeat (some ⟨B, some T2⟩) A T2 cooldown
          = some (⟨false, HeartbeatDao.heartbeatRejectMsg cooldown⟩,
                  some ⟨B, some T2⟩)) ∧
    (HeartbeatDao.update_heartbeat none "u1" 0 60
        = some (⟨true, ""⟩, some ⟨"u1", some 0⟩)) ∧
    (HeartbeatDao.update_heartbeat (some ⟨"u1", some 0⟩) "u2" 30 60
        = some (⟨false, HeartbeatDao.heartbeatRejectMsg 30⟩, some ⟨"u1", some 0⟩)) ∧
    (HeartbeatDao.update_heartbeat (some ⟨"u1", some 0⟩) "u2" 61 60
        = some (⟨true, ""⟩, some ⟨"u2", some 61⟩)) := by
  refine ⟨?_, ?_, ?_, by decide, by decide, by decide⟩
  · intro A B T Δ cooldown hAB h0 hlt
    simp only [HeartbeatDao.update_heartbeat, if_neg hAB, add_sub_cancel_left]
    rw [if_neg (not_le.mpr hlt)]
  · intro A B T Δ cooldown hAB hge
    simp only [HeartbeatDao.update_heartbeat, if_neg hAB, add_sub_cancel_left]
    rw [if_pos hge]
  · intro A B T2 cooldown hAB hpos
    have hBA : B ≠ A := hAB.symm
    simp only [HeartbeatDao.update_heartbeat, if_neg hBA, sub_self]
    rw [if_neg (not_le.mpr hpos), sub_zero]

/-- Witness for C2 at the scenario-B inputs via the universal parts. -/
theorem arbitration_fencing_witness :
    HeartbeatDao.update_heartbeat (some ⟨"u1", some 0⟩) "u2" (0 + 30) 60
      = some (⟨false, HeartbeatDao.heartbeatRejectMsg (60 - 30)⟩,
              some ⟨"u1", some 0⟩) ∧
    HeartbeatDao.update_heartbeat (some ⟨"u1", some 0⟩) "u2" (0 + 61) 60
      = some (⟨true, ""⟩, some ⟨"u2", some (0 + 61)⟩) ∧
    HeartbeatDao.update_heartbeat (some ⟨"u2", some 61⟩) "u1" 61 60
      = some (⟨false, HeartbeatDao.heartbeatRejectMsg 60⟩, some ⟨"u2", some 61⟩) :=
  ⟨arbitration_fencing.1 "u1" "u2" 0 30 60 (by decide) (by decide) (by decide),
   arbitration_fencing.2.1 "u1" "u2" 0 61 60 (by decide) (by decide),
   arbitration_fencing.2.2.1 "u1" "u2" 61 60 (by decide) (by decide)⟩

/-- C3: `check_instance_uuid_valid` returns true exactly under the
spec's condition (`specInstanceValid`), and a false check on the
secret-authenticated path of `login_required` rejects the request with
the 409 conflict decision before the handler runs. -/
theorem check_instance_uuid_valid_spec :
    (∀ (lease : Option HeartbeatDao.Lease) (uuid : String) (now cooldown : Int),
        HeartbeatDao.check_instance_uuid_valid lease uuid now cooldown = true ↔
          specInstanceValid lease uuid now cooldown) ∧
    (∀ (uid cid : Nat) (uuid : String)
        (leaseOf : Nat → Nat → Option HeartbeatDao.Lease) (now : Int),
        HeartbeatDao.check_instance_uuid_valid (leaseOf uid cid) uuid now 60
            = false →
        HeartbeatDao.login_required (some uid) (some uuid) (some cid) leaseOf now
          = HeartbeatDao.AuthDecision.conflict) := by
  constructor
  · intro lease uuid now cooldown
    match lease with
    | none => simp [HeartbeatDao.check_instance_uuid_valid, specInstanceValid]
    | some hb =>
      by_cases h1 : hb.instance_uuid = uuid
      · simp [HeartbeatDao.check_instance_uuid_valid, specInstanceValid, h1]
      · match h2 : hb.last_sync_at with
        | none =>
            simp [HeartbeatDao.check_instance_uuid_valid, specInstanceValid,
              h1, h2]
        | some t =>
            by_cases h3 : now - t < cooldown
            · simp only [HeartbeatDao.check_instance_uuid_valid, h2, if_neg h1,
                if_pos h3, specInstanceValid]
              refine iff_of_false (by simp) ?_
              rintro (h | ⟨hb2, he, hh⟩ | ⟨hb2, he, hh⟩ | ⟨hb2, t2, he, hh, hc⟩)
              · exact Option.noConfusion h
              · cases Option.some.inj he
                exact h1 hh
              · cases Option.some.inj he
                rw [h2] at hh
                exact Option.noConfusion hh
              · cases Option.some.inj he
                rw [h2] at hh
                cases Option.some.inj hh
                omega
            · have hc : cooldown ≤ now - t := not_lt.mp h3
              simp only [HeartbeatDao.check_instance_uuid_valid, h2, if_neg h1,
                if_neg h3, specInstanceValid]
              exact iff_of_true (by trivial)
                (Or.inr (Or.inr (Or.inr ⟨hb, t, rfl, h2, hc⟩)))
  · intro uid cid uuid leaseOf now h
    simp [HeartbeatDao.login_required, h]

/-- Witness for C3: a stale differing token inside the cooldown makes
the authenticated request return the conflict decision. -/
theorem check_instance_uuid_valid_spec_witness :
    HeartbeatDao.login_required (some 1) (some "u2") (some 42)
      (fun _ _ => some ⟨"u1", some 0⟩) 30
      = HeartbeatDao.AuthDecision.conflict :=
  check_instance_uuid_valid_spec.2 1 42 "u2"
    (fun _ _ => some ⟨"u1", some 0⟩) 30 (by decide)

/-- C4: one `execute(trace_id)` call follows the transition table —
`pending`/`running` run the development executor and persist
`reviewing` on success (with the `pending → running` intermediate
persist), `revising` runs the development executor (its main executor
delegates to `execute_for_pending`, whose prompt threads the latest
`user_feedback` node, extracted by `user_feedback` from the last flow
node) and persists `reviewing`, `reviewed` runs the merge-preparation
executor and persists `done`, and `reviewing`/`done`/`error`/
`client_error` run nothing and persist nothing. -/
theorem state_machine_transition_table :
    (BaseNodeM.execute "pending"
      = some ⟨some ⟨"running", false⟩, some .executeForPending,
              some ⟨"reviewing", true⟩⟩) ∧
    (BaseNodeM.execute "running"
      = some ⟨none, some .executeForPending, some ⟨"reviewing", true⟩⟩) ∧
    (BaseNodeM.execute "revising"
      = some ⟨none, some .executeForRevising, some ⟨"reviewing", true⟩⟩) ∧
    (BaseNodeM.execute "reviewed"
      = some ⟨none, some .executeForReviewed, some ⟨"done", true⟩⟩) ∧
    (BaseNodeM.execute "reviewing" = some ⟨none, none, none⟩) ∧
    (BaseNodeM.execute "done" = some ⟨none, none, none⟩) ∧
    (BaseNodeM.execute "error" = some ⟨none, none, none⟩) ∧
    (BaseNodeM.execute "client_error" = some ⟨none, none, none⟩) ∧
    (BaseNodeM.codeDevelopStage .executeForPending
      = BaseNodeM.StageKind.development) ∧
    (BaseNodeM.codeDevelopStage .executeForRevising
      = BaseNodeM.StageKind.development) ∧
    (BaseNodeM.codeDevelopStage .executeForReviewed
      = BaseNodeM.StageKind.mergePreparation) ∧
    (∀ (ns : List BaseNodeM.FlowNodeRec) (c : String),
        BaseNodeM.user_feedback (ns ++ [⟨"user_feedback", c⟩]) = c) := by
  refine ⟨by decide, by decide, by decide, by decide, by decide, by decide,
    by decide, by decide, rfl, rfl, rfl, ?_⟩
  intro ns c
  simp [BaseNodeM.user_feedback, List.getLast?_concat]

/-- C5: an exception propagating out of the stage envelope is caught by
the worker run loop, which sets `flow_status` to `client_error`,
records the exception text under `flow.error` and persists it; any
fetched task whose `flow_status` contains the substring `error`
(in particular `client_error` itself) makes the iteration skip
execution and change nothing, so the failed stage is never retried
until an external actor resets the status (on which the state machine
itself also no-ops). -/
theorem client_error_failure_semantics :
    (∀ (fetched : TaskWorkerM.WTask) (msg : String) (b : Bool),
        strContains fetched.flow_status "error" = false →
        TaskWorkerM.run_iteration fetched (some msg) b
          = ⟨⟨"client_error", some msg⟩, true, some msg⟩) ∧
    (∀ (fetched : TaskWorkerM.WTask) (raised : Option String) (b : Bool),
        strContains fetched.flow_status "error" = true →
        TaskWorkerM.run_iteration fetched raised b = ⟨fetched, false, none⟩) ∧
    (strContains "client_error" "error" = true) ∧
    (BaseNodeM.execute "client_error" = some ⟨none, none, none⟩) := by
  refine ⟨?_, ?_, by decide, by decide⟩
  · intro fetched msg b h
    simp [TaskWorkerM.run_iteration, h]
  · intro fetched raised b h
    simp [TaskWorkerM.run_iteration, h]

/-- Witness for C5: a failing stage on a running task persists
`client_error`, and the next iteration on the re-fetched
`client_error` task skips execution. -/
theorem client_error_failure_semantics_witness :
    TaskWorkerM.run_iteration ⟨"running", none⟩ (some "Agent 执行失败") true
      = ⟨⟨"client_error", some "Agent 执行失败"⟩, true, some "Agent 执行失败"⟩ ∧
    TaskWorkerM.run_iteration ⟨"client_error", some "x"⟩ none false
      = ⟨⟨"client_error", some "x"⟩, false, none⟩ :=
  ⟨client_error_failure_semantics.1 ⟨"running", none⟩ "Agent 执行失败" true
      (by decide),
   client_error_failure_semantics.2.1 ⟨"client_error", some "x"⟩ none false
      (by decide)⟩

/-- C7: the flow-update DAO writes only non-`None` fields — a
status-only update leaves the stored flow byte-for-byte unchanged, a
flow-only update leaves the stored status unchanged, and a call with
both fields `None` changes nothing and reports success. -/
theorem update_task_flow_frame :
    (∀ (t : TaskDaoM.StoredTask) (fs : String) (rowExists : Bool),
        (TaskDaoM.update_task_flow rowExists t none (some fs)).1.flow
          = t.flow) ∧
    (∀ (t : TaskDaoM.StoredTask) (f : String) (rowExists : Bool),
        (TaskDaoM.update_task_flow rowExists t (some f) none).1.flow_status
          = t.flow_status) ∧
    (∀ (t : TaskDaoM.StoredTask) (rowExists : Bool),
        TaskDaoM.update_task_flow rowExists t none none = (t, true)) ∧
    (∀ (t : TaskDaoM.StoredTask) (fs : String),
        TaskDaoM.update_task_flow true t none (some fs)
          = (⟨t.flow, fs⟩, true)) ∧
    (∀ (t : TaskDaoM.StoredTask) (f : String),
        TaskDaoM.update_task_flow true t (some f) none
          = (⟨f, t.flow_status⟩, true)) ∧
    (∀ (t : TaskDaoM.StoredTask) (f fs : String),
        TaskDaoM.update_task_flow true t (some f) (some fs)
          = (⟨f, fs⟩, true)) := by
  refine ⟨?_, ?_, ?_, ?_, ?_, ?_⟩
  · intro t fs rowExists
    cases rowExists <;> simp [TaskDaoM.update_task_flow]
  · intro t f rowExists
    cases rowExists <;> simp [TaskDaoM.update_task_flow]
  · intro t rowExists
    cases rowExists <;> simp [TaskDaoM.update_task_flow]
  · intro t fs
    simp [TaskDaoM.update_task_flow]
  · intro t f
    simp [TaskDaoM.update_task_flow]
  · intro t f fs
    simp [TaskDaoM.update_task_flow]

/-- Unfolding `requestAux` at an index whose outcome is a
connection-level failure with retry budget left: one retry, one
request, one 10-second sleep. -/
theorem requestAux_conn (outcomes : Nat → RpcM.NetOutcome) (k : Nat)
    (hk : k < RpcM.maxNetworkRetries) (h : outcomes k = .connError) :
    RpcM.requestAux outcomes k
      = ((RpcM.requestAux outcomes (k + 1)).1,
         (RpcM.requestAux outcomes (k + 1)).2.1 + 1,
         (RpcM.requestAux outcomes (k + 1)).2.2 + 10) := by
  conv_lhs => unfold RpcM.requestAux
  rw [h]
  simp [hk]

/-- Skipping over `j` consecutive connection failures adds `j` requests
and `j` 10-second sleeps to whatever happens afterwards. -/
theorem requestAux_skip (outcomes : Nat → RpcM.NetOutcome) :
    ∀ (j k : Nat), k + j ≤ RpcM.maxNetworkRetries →
    (∀ i, k ≤ i → i < k + j → outcomes i = .connError) →
    RpcM.requestAux outcomes k
      = ((RpcM.requestAux outcomes (k + j)).1,
         (RpcM.requestAux outcomes (k + j)).2.1 + j,
         (RpcM.requestAux outcomes (k + j)).2.2 + 10 * j) := by
  intro j
  induction j with
  | zero => intro k _ _; simp
  | succ n ih =>
      intro k hle hconn
      have hk : k < RpcM.maxNetworkRetries := by omega
      rw [requestAux_conn outcomes k hk (hconn k le_rfl (by omega))]
      rw [ih (k + 1) (by omega) (fun i h1 h2 => hconn i (by omega) (by omega))]
      have hkn : k + 1 + n = k + (n + 1) := by omega
      rw [hkn]
      simp only [Prod.mk.injEq]
      refine ⟨by trivial, by omega, by omega⟩

/-- C6: transport contract of `_request` — a run of connection-level
failures is retried transparently with a 10-second sleep before each
retry, up to 10 retries, after which the hard `ApiException(0, ...)`
failure surfaces (11 requests, 100 seconds slept in total); a decoded
HTTP response with status ≥ 400 raises the typed error carrying the
status and the server message without any further attempt; a body that
fails to parse raises immediately without any further attempt. -/
theorem transport_retry_contract :
    (∀ (outcomes : Nat → RpcM.NetOutcome),
        (∀ i, i ≤ RpcM.maxNetworkRetries → outcomes i = .connError) →
        RpcM.request outcomes = (.apiError 0 RpcM.netFailMsg, 11, 100)) ∧
    (∀ (outcomes : Nat → RpcM.NetOutcome) (j status : Nat)
        (message : Option String),
        j ≤ RpcM.maxNetworkRetries →
        (∀ i, i < j → outcomes i = .connError) →
        outcomes j = .response status (.parsed message) → status < 400 →
        RpcM.request outcomes = (.ok message, j + 1, 10 * j)) ∧
    (∀ (outcomes : Nat → RpcM.NetOutcome) (j status : Nat)
        (message : Option String),
        j ≤ RpcM.maxNetworkRetries →
        (∀ i, i < j → outcomes i = .connError) →
        outcomes j = .response status (.parsed message) → 400 ≤ status →
        RpcM.request outcomes
          = (.apiError status (message.getD RpcM.defaultErrMsg), j + 1,
             10 * j)) ∧
    (∀ (outcomes : Nat → RpcM.NetOutcome) (j status : Nat),
        j ≤ RpcM.maxNetworkRetries →
        (∀ i, i < j → outcomes i = .connError) →
        outcomes j = .response status .unparsable →
        RpcM.request outcomes
          = (.apiError status RpcM.jsonFailMsg, j + 1, 10 * j)) := by
  have skip0 : ∀ (outcomes : Nat → RpcM.NetOutcome) (j : Nat),
      j ≤ RpcM.maxNetworkRetries →
      (∀ i, i < j → outcomes i = .connError) →
      RpcM.request outcomes
        = ((RpcM.requestAux outcomes j).1,
           (RpcM.requestAux outcomes j).2.1 + j,
           (RpcM.requestAux outcomes j).2.2 + 10 * j) := by
    intro outcomes j hj hconn
    rw [RpcM.request,
      requestAux_skip outcomes j 0 (by omega)
        (fun i _ h2 => hconn i (by omega))]
    simp
  refine ⟨?_, ?_, ?_, ?_⟩
  · intro outcomes hconn
    rw [skip0 outcomes RpcM.maxNetworkRetries le_rfl
      (fun i hi => hconn i (le_of_lt hi))]
    have h10 : RpcM.requestAux outcomes RpcM.maxNetworkRetries
        = (.apiError 0 RpcM.netFailMsg, 1, 0) := by
      unfold RpcM.requestAux
      rw [hconn RpcM.maxNetworkRetries le_rfl]
      simp
    rw [h10]
    simp [RpcM.maxNetworkRetries]
  · intro outcomes j status message hj hconn hresp hlt
    rw [skip0 outcomes j hj hconn]
    have hi : RpcM.requestAux outcomes j = (.ok message, 1, 0) := by
      unfold RpcM.requestAux
      rw [hresp]
      simp [Nat.not_le.mpr hlt]
    rw [hi]
    simp only [Prod.mk.injEq]
    refine ⟨by trivial, by omega, by omega⟩
  · intro outcomes j status message hj hconn hresp hge
    rw [skip0 outcomes j hj hconn]
    have hi : RpcM.requestAux outcomes j
        = (.apiError status (message.getD RpcM.defaultErrMsg), 1, 0) := by
      unfold RpcM.requestAux
      rw [hresp]
      simp [hge]
    rw [hi]
    simp only [Prod.mk.injEq]
    refine ⟨by trivial, by omega, by omega⟩
  · intro outcomes j status hj hconn hresp
    rw [skip0 outcomes j hj hconn]
    have hi : RpcM.requestAux outcomes j
        = (.apiError status RpcM.jsonFailMsg, 1, 0) := by
      unfold RpcM.requestAux
      rw [hresp]
    rw [hi]
    simp only [Prod.mk.injEq]
    refine ⟨by trivial, by omega, by omega⟩

/-- Witness for C6: all attempts failing at the connection level
surfaces the hard failure after 11 requests and 100 seconds of sleep;
an immediate decoded 500 surfaces the typed error with no retry. -/
theorem transport_retry_contract_witness :
    RpcM.request (fun _ => .connError)
      = (.apiError 0 RpcM.netFailMsg, 11, 100) ∧
    RpcM.request (fun _ => .response 500 (.parsed (some "server boom")))
      = (.apiError 500 "server boom", 1, 0) := by
  constructor
  · exact transport_retry_contract.1 (fun _ => .connError) (fun _ _ => rfl)
  · have h := transport_retry_contract.2.2.1
      (fun _ => .response 500 (.parsed (some "server boom"))) 0 500
      (some "server boom") (by omega)
      (fun i hi => absurd hi (Nat.not_lt_zero i)) rfl (by omega)
    simpa using h

/-- C10: the transport's flow-update never propagates API errors — it
returns `false` whenever `_request` raises the typed error (HTTP ≥ 400
or retries exhausted) and `true` on success; and the worker iteration's
outcome is independent of whether that persist succeeded, so a failed
`client_error` persist is dropped silently. -/
theorem update_flow_swallows_api_errors :
    (∀ (outcomes : Nat → RpcM.NetOutcome) (code : Nat) (msg : String)
        (rest : Nat × Nat),
        RpcM.request outcomes = (.apiError code msg, rest) →
        RpcM.rpc_update_task_flow outcomes = false) ∧
    (∀ (outcomes : Nat → RpcM.NetOutcome) (msg : Option String)
        (rest : Nat × Nat),
        RpcM.request outcomes = (.ok msg, rest) →
        RpcM.rpc_update_task_flow outcomes = true) ∧
    (∀ (fetched : TaskWorkerM.WTask) (raised : Option String),
        TaskWorkerM.run_iteration fetched raised false
          = TaskWorkerM.run_iteration fetched raised true) := by
  refine ⟨?_, ?_, ?_⟩
  · intro outcomes code msg rest h
    rw [RpcM.rpc_update_task_flow, h]
  · intro outcomes msg rest h
    rw [RpcM.rpc_update_task_flow, h]
  · intro fetched raised
    simp [TaskWorkerM.run_iteration]

/-- Witness for C10: a decoded 500 on the flow-update PUT yields
`false` rather than an exception. -/
theorem update_flow_swallows_api_errors_witness :
    RpcM.rpc_update_task_flow (fun _ => .response 500 (.parsed (some "err")))
      = false := by
  have h : RpcM.request (fun _ => .response 500 (.parsed (some "err")))
      = (.apiError 500 "err", 1, 0) := by
    rw [RpcM.request]
    unfold RpcM.requestAux
    norm_num
  exact update_flow_swallows_api_errors.1 _ 500 "err" (1, 0) h

/-- When the branch-setup phase succeeds, `sync_and_rebase_branch` is
the rebase/push tail applied to a setup trace that contains no push and
no abort. -/
theorem sync_reaches_finish (env : GitM.GitEnv) (dev dflt : String)
    (h : GitM.reachesRebase env true true dev dflt) :
    ∃ tr, GitM.sync_and_rebase_branch env true true dev dflt
        = GitM.syncRebaseFinish env dev dflt tr ∧
      (∀ b, GitM.GitCmd.pushForce b ∉ tr) ∧
      GitM.GitCmd.rebaseAbort ∉ tr := by
  obtain ⟨-, -, hfetch, hrest⟩ := h
  by_cases hrem : GitM.check_remote_branch_exists env dev = true
  · rw [if_pos hrem] at hrest
    obtain ⟨hco, hrs⟩ := hrest
    refine ⟨[GitM.GitCmd.fetchAll, GitM.GitCmd.lsRemoteHeads dev,
             GitM.GitCmd.checkout dev,
             GitM.GitCmd.resetHard ("origin/" ++ dev)], ?_, ?_, ?_⟩
    · simp [GitM.sync_and_rebase_branch, hfetch, hrem, hco, hrs]
    · intro b
      simp
    · simp
  · rw [if_neg hrem] at hrest
    obtain ⟨hcd, hrd, hcb⟩ := hrest
    by_cases hloc : GitM.check_local_branch_exists env dev = true
    · refine ⟨[GitM.GitCmd.fetchAll, GitM.GitCmd.lsRemoteHeads dev,
               GitM.GitCmd.checkout dflt,
               GitM.GitCmd.resetHard ("origin/" ++ dflt),
               GitM.GitCmd.branchList dev, GitM.GitCmd.branchDelete dev,
               GitM.GitCmd.checkoutNew dev], ?_, ?_, ?_⟩
      · simp [GitM.sync_and_rebase_branch, hfetch, hrem, hcd, hrd, hloc, hcb]
      · intro b
        simp
      · simp
    · refine ⟨[GitM.GitCmd.fetchAll, GitM.GitCmd.lsRemoteHeads dev,
               GitM.GitCmd.checkout dflt,
               GitM.GitCmd.resetHard ("origin/" ++ dflt),
               GitM.GitCmd.branchList dev, GitM.GitCmd.checkoutNew dev],
          ?_, ?_, ?_⟩
      · simp [GitM.sync_and_rebase_branch, hfetch, hrem, hcd, hrd, hloc, hcb]
      · intro b
        simp
      · simp

/-- A failed rebase makes the tail abort and return the distinguished
conflict outcome. -/
theorem syncRebaseFinish_conflict (env : GitM.GitEnv) (dev dflt : String)
    (tr : List GitM.GitCmd)
    (h : (env (.rebase ("origin/" ++ dflt))).success = false) :
    GitM.syncRebaseFinish env dev dflt tr
      = ({ success := false, message := "rebase conflict" },
         tr ++ [GitM.GitCmd.rebase ("origin/" ++ dflt),
                GitM.GitCmd.rebaseAbort]) := by
  simp [GitM.syncRebaseFinish, h]

/-- A successful rebase makes the tail force-push; a failed push gives
the generic push-failure message. -/
theorem syncRebaseFinish_push (env : GitM.GitEnv) (dev dflt : String)
    (tr : List GitM.GitCmd)
    (h : (env (.rebase ("origin/" ++ dflt))).success = true) :
    GitM.GitCmd.pushForce dev ∈ (GitM.syncRebaseFinish env dev dflt tr).2 ∧
    ((env (.pushForce dev)).success = false →
      (GitM.syncRebaseFinish env dev dflt tr).1
        = { success := false,
            message := "push 失败: " ++ (env (.pushForce dev)).message }) := by
  constructor
  · by_cases hp : (env (.pushForce dev)).success = true <;>
      simp [GitM.syncRebaseFinish, h, hp]
  · intro hp
    simp [GitM.syncRebaseFinish, h, hp]

/-- The conflict outcome's message differs from every push-failure
message. -/
theorem push_fail_msg_ne (m : String) :
    ("push 失败: " ++ m) ≠ "rebase conflict" := by
  intro h
  have hd := congrArg String.data h
  rw [String.data_append] at hd
  rw [show "push 失败: ".data = 'p' :: "ush 失败: ".data from by decide] at hd
  rw [show "rebase conflict".data = 'r' :: "ebase conflict".data from by decide]
    at hd
  rw [List.cons_append] at hd
  injection hd with h1 h2
  exact absurd h1 (by decide)

/-- C8: when the rebase step fails, `sync_and_rebase_branch` aborts the
rebase and returns the distinguished `rebase conflict` outcome without
pushing; when the rebase succeeds the development branch is
force-pushed and a push failure yields the generic
`push 失败: ...` message, never equal to the conflict marker; the
caller hands only the conflict-signalled failure to the agent with a
structured reply and fails the stage when the agent reports failure,
while a non-conflict failure raises the generic error without
consulting the agent. -/
theorem rebase_conflict_signaling :
    (∀ (env : GitM.GitEnv) (dev dflt : String),
        GitM.reachesRebase env true true dev dflt →
        (env (.rebase ("origin/" ++ dflt))).success = false →
        (GitM.sync_and_rebase_branch env true true dev dflt).1
            = { success := false, message := "rebase conflict" } ∧
        GitM.GitCmd.rebaseAbort
            ∈ (GitM.sync_and_rebase_branch env true true dev dflt).2 ∧
        (∀ b, GitM.GitCmd.pushForce b
            ∉ (GitM.sync_and_rebase_branch env true true dev dflt).2)) ∧
    (∀ (env : GitM.GitEnv) (dev dflt : String),
        GitM.reachesRebase env true true dev dflt →
        (env (.rebase ("origin/" ++ dflt))).success = true →
        GitM.GitCmd.pushForce dev
            ∈ (GitM.sync_and_rebase_branch env true true dev dflt).2 ∧
        ((env (.pushForce dev)).success = false →
          (GitM.sync_and_rebase_branch env true true dev dflt).1
            = { success := false,
                message := "push 失败: " ++ (env (.pushForce dev)).message })) ∧
    (∀ m : String, ("push 失败: " ++ m) ≠ "rebase conflict") ∧
    (∀ r : String,
        CodeDevelopM.sync_repo_handle
            { success := false, message := "rebase conflict" } (.fail r)
          = .error ("Agent 处理 rebase 冲突失败: " ++ r)) ∧
    (∀ msg : String,
        CodeDevelopM.sync_repo_handle
            { success := false, message := "rebase conflict" }
            (.parsed false msg)
          = .error ("解决冲突失败: " ++ msg)) ∧
    (∀ msg : String,
        CodeDevelopM.sync_repo_handle
            { success := false, message := "rebase conflict" }
            (.parsed true msg)
          = .ok ()) ∧
    (∀ (res : GitM.GitResult) (agent : CodeDevelopM.AgentReply),
        res.success = false →
        strContains (pyLower res.message) "conflict" = false →
        CodeDevelopM.sync_repo_handle res agent
          = .error ("同步并 rebase 失败: " ++ res.message)) := by
  refine ⟨?_, ?_, push_fail_msg_ne, ?_, ?_, ?_, ?_⟩
  · intro env dev dflt hreach hrb
    obtain ⟨tr, heq, hnp, hna⟩ := sync_reaches_finish env dev dflt hreach
    rw [heq, syncRebaseFinish_conflict env dev dflt tr hrb]
    refine ⟨rfl, by simp, ?_⟩
    intro b hb
    rcases List.mem_append.mp hb with h | h
    · exact hnp b h
    · simp at h
  · intro env dev dflt hreach hrb
    obtain ⟨tr, heq, hnp, hna⟩ := sync_reaches_finish env dev dflt hreach
    rw [heq]
    exact syncRebaseFinish_push env dev dflt tr hrb
  · intro r
    rfl
  · intro msg
    rfl
  · intro msg
    rfl
  · intro res agent hf hc
    simp [CodeDevelopM.sync_repo_handle, hf, hc]

/-- Witness for C8 on a concrete environment whose rebase fails:
conflict outcome, abort in the trace, no push; and the agent failure
path fails the stage. -/
theorem rebase_conflict_signaling_witness :
    (GitM.sync_and_rebase_branch
        (fun c => match c with
          | .rebase _ => ⟨false, "CONFLICT (content): merge conflict"⟩
          | .lsRemoteHeads b => ⟨true, "refs/heads/" ++ b⟩
          | _ => ⟨true, "ok"⟩)
        true true "ai-task-7" "main").1
      = { success := false, message := "rebase conflict" } ∧
    CodeDevelopM.sync_repo_handle
        { success := false, message := "rebase conflict" }
        (.parsed false "无法解决") = .error ("解决冲突失败: " ++ "无法解决") := by
  constructor
  · exact (rebase_conflict_signaling.1
      (fun c => match c with
        | .rebase _ => ⟨false, "CONFLICT (content): merge conflict"⟩
        | .lsRemoteHeads b => ⟨true, "refs/heads/" ++ b⟩
        | _ => ⟨true, "ok"⟩)
      "ai-task-7" "main" (by decide) rfl).1
  · exact rebase_conflict_signaling.2.2.2.2.1 "无法解决"

/-- The ahead-count check issues only `rev-parse` and possibly one
`rev-list --count`. -/
theorem check_diff_trace_shape (env : GitM.GitEnv) (dflt : String) :
    (GitM.check_diff_with_default_branch env dflt).2
        = [GitM.GitCmd.revParseHead] ∨
    ∃ r, (GitM.check_diff_with_default_branch env dflt).2
        = [GitM.GitCmd.revParseHead, GitM.GitCmd.revListCount r] := by
  unfold GitM.check_diff_with_default_branch
  by_cases h1 : (env .revParseHead).success = true
  · simp only [h1, Bool.not_true, not_true_eq_false, if_false,
      Bool.true_eq_false]
    by_cases h2 : pyStrip (env .revParseHead).message = dflt
    · simp [h2]
    · simp only [h2, if_false]
      refine Or.inr ⟨"origin/" ++ dflt ++ ".."
        ++ pyStrip (env GitM.GitCmd.revParseHead).message, ?_⟩
      split
      · split <;> rfl
      · rfl
  · simp [h1]

/-- An empty porcelain status short-circuits `commit_and_push_changes`
into the "nothing to commit" report plus the informational ahead
count. -/
theorem commit_no_changes (env : GitM.GitEnv) (cmsg dflt dm : String)
    (hst : (env .statusPorcelain).success = true)
    (hempty : pyStrip (env .statusPorcelain).message = "")
    (hdm : (GitM.check_diff_with_default_branch env dflt).1 = some dm) :
    GitM.commit_and_push_changes env true true cmsg dflt
      = ({ success := true, message := "没有需要提交的修改",
           diff_message := dm },
         GitM.GitCmd.statusPorcelain
           :: (GitM.check_diff_with_default_branch env dflt).2) := by
  unfold GitM.commit_and_push_changes
  simp [hst, hempty, hdm]

/-- On the modelled clean working copy the ahead-count check always
produces a value (no `int()` failure). -/
theorem check_diff_envOfState (s1 : GitM.RepoState) (current dflt : String)
    (k : Nat) (hparse : pyParseNat s1.aheadMsg = some k) :
    ∃ dm, (GitM.check_diff_with_default_branch (GitM.envOfState s1 current)
        dflt).1 = some dm := by
  unfold GitM.check_diff_with_default_branch GitM.envOfState
  by_cases h2 : pyStrip current = dflt
  · simp [h2]
  · simp [h2, hparse]

/-- C9: when porcelain status reports no changes, the operation
succeeds with the "nothing to commit" message and the informational
ahead count, running no `add`, `commit` or `push`; a call on the
modelled working copy always leaves a clean worktree, so a second call
with no changes in between reports nothing to commit and performs no
push. -/
theorem commit_and_push_idempotence :
    (∀ (env : GitM.GitEnv) (cmsg dflt dm : String),
        (env .statusPorcelain).success = true →
        pyStrip (env .statusPorcelain).message = "" →
        (GitM.check_diff_with_default_branch env dflt).1 = some dm →
        (GitM.commit_and_push_changes env true true cmsg dflt).1
            = { success := true, message := "没有需要提交的修改",
                diff_message := dm } ∧
        GitM.GitCmd.addAll
            ∉ (GitM.commit_and_push_changes env true true cmsg dflt).2 ∧
        (∀ m, GitM.GitCmd.commit m
            ∉ (GitM.commit_and_push_changes env true true cmsg dflt).2) ∧
        (∀ b, GitM.GitCmd.push b
            ∉ (GitM.commit_and_push_changes env true true cmsg dflt).2)) ∧
    (∀ (s : GitM.RepoState) (newMsg : String),
        (GitM.commitStateStep s newMsg).dirty = false) ∧
    (∀ (s1 : GitM.RepoState) (current cmsg dflt : String) (k : Nat),
        s1.dirty = false →
        pyParseNat s1.aheadMsg = some k →
        (GitM.commit_and_push_changes (GitM.envOfState s1 current) true true
            cmsg dflt).1.message = "没有需要提交的修改" ∧
        (∀ b, GitM.GitCmd.push b
            ∉ (GitM.commit_and_push_changes (GitM.envOfState s1 current)
                true true cmsg dflt).2)) := by
  refine ⟨?_, ?_, ?_⟩
  · intro env cmsg dflt dm hst hempty hdm
    rw [commit_no_changes env cmsg dflt dm hst hempty hdm]
    refine ⟨rfl, ?_, ?_, ?_⟩
    · rcases check_diff_trace_shape env dflt with h | ⟨r, h⟩ <;> simp [h]
    · intro m
      rcases check_diff_trace_shape env dflt with h | ⟨r, h⟩ <;> simp [h]
    · intro b
      rcases check_diff_trace_shape env dflt with h | ⟨r, h⟩ <;> simp [h]
  · intro s newMsg
    unfold GitM.commitStateStep
    by_cases h : s.dirty = true <;> simp_all
  · intro s1 current cmsg dflt k hclean hparse
    have hst : ((GitM.envOfState s1 current) .statusPorcelain).success
        = true := by
      simp [GitM.envOfState]
    have hempty : pyStrip ((GitM.envOfState s1 current)
        .statusPorcelain).message = "" := by
      simp [GitM.envOfState, hclean]
      decide
    obtain ⟨dm, hdm⟩ := check_diff_envOfState s1 current dflt k hparse
    rw [commit_no_changes (GitM.envOfState s1 current) cmsg dflt dm hst
      hempty hdm]
    refine ⟨rfl, ?_⟩
    intro b
    rcases check_diff_trace_shape (GitM.envOfState s1 current) dflt with
      h | ⟨r, h⟩ <;> simp [h]

/-- Witness for C9: a clean working copy reports nothing to commit, and
the post-call state of a dirty working copy is clean, so the second of
two consecutive calls reports nothing to commit and pushes nothing. -/
theorem commit_and_push_idempotence_witness :
    (GitM.commit_and_push_changes
        (GitM.envOfState ⟨false, "0"⟩ "ai-task-7") true true
        "feat: x" "main").1
      = { success := true, message := "没有需要提交的修改",
          diff_message := "" } ∧
    (GitM.commitStateStep ⟨true, "0"⟩ "1").dirty = false ∧
    (GitM.commit_and_push_changes
        (GitM.envOfState (GitM.commitStateStep ⟨true, "0"⟩ "1") "ai-task-7")
        true true "feat: x" "main").1.message = "没有需要提交的修改" := by
  refine ⟨?_, ?_, ?_⟩
  · have h := (commit_and_push_idempotence.1
      (GitM.envOfState ⟨false, "0"⟩ "ai-task-7") "feat: x" "main" ""
      (by decide) (by decide) (by decide)).1
    simpa using h
  · exact commit_and_push_idempotence.2.1 ⟨true, "0"⟩ "1"
  · exact (commit_and_push_idempotence.2.2
      (GitM.commitStateStep ⟨true, "0"⟩ "1") "ai-task-7" "feat: x" "main" 1
      (by decide) (by decide)).1
